import Mathlib

/-!
# Home-Inventory: shallow embedding and verification

A shallow embedding of the ownership-scoped data-access and authentication
layer of the Home-Inventory application (`src/models.py`, `src/schemas.py`,
`src/crud.py`, `src/auth.py`, `src/main.py`, `src/routers/items.py`), with
theorems settling the specification claims about it.

Database tables are embedded as Lean lists holding the rows in the order the
underlying store presents them; each SQLAlchemy query is translated clause by
clause (`filter` → `List.filter`, `first()` → `List.head?`,
`offset`/`limit` → `List.drop`/`List.take`).  External libraries that the
source calls (the `jose` JWT library, `passlib` hashing, and the SQL `ILIKE`
operator evaluated by the database) are modelled separately; each such model
carries a doc comment saying what it stands for.
-/

namespace HomeInventory

/-- `models.User` (src/models.py): the `users` table row.  The `created_at`
timestamp column is omitted: it is server-generated and no claim mentions it. -/
structure User where
  id : Nat
  email : String
  full_name : Option String
  hashed_password : String
  is_active : Bool
deriving Repr, DecidableEq

/-- `models.Item` (src/models.py): the `items` table row.  `name` and `room`
are `nullable=False`, every other text column is nullable (`Option`);
`owner_id` is a nullable foreign key.  The server-generated `created_at`
column is omitted (no claim mentions it). -/
structure Item where
  id : Nat
  name : String
  category : Option String := none
  room : String
  cupboard : Option String := none
  shelf : Option String := none
  loft : Option String := none
  inside_items : Option String := none
  notes : Option String := none
  image_name : Option String := none
  image_path : Option String := none
  owner_id : Option Nat := none
deriving Repr, DecidableEq

/-- `schemas.UserCreate` (src/schemas.py). -/
structure UserCreate where
  email : String
  full_name : Option String := none
  password : String
deriving Repr, DecidableEq

/-- `schemas.ItemCreate` (src/schemas.py): all `ItemBase` fields, no owner. -/
structure ItemCreate where
  name : String
  category : Option String := none
  room : String
  cupboard : Option String := none
  shelf : Option String := none
  loft : Option String := none
  inside_items : Option String := none
  notes : Option String := none
  image_name : Option String := none
  image_path : Option String := none
deriving Repr, DecidableEq

/-- `schemas.ItemUpdate` (src/schemas.py).  Pydantic models remember which
fields were explicitly provided in the request payload (`__fields_set__`),
and `crud.update_item` consumes exactly that information through
`item.dict(exclude_unset=True)`.  The outer `Option` on each field models the
set/unset flag: `none` = the field was not supplied, `some v` = the field was
supplied with value `v` (which, for schema-optional columns, may itself be
`none`, i.e. an explicit null). -/
structure ItemUpdate where
  name : Option String := none
  category : Option (Option String) := none
  room : Option String := none
  cupboard : Option (Option String) := none
  shelf : Option (Option String) := none
  loft : Option (Option String) := none
  inside_items : Option (Option String) := none
  notes : Option (Option String) := none
  image_name : Option (Option String) := none
  image_path : Option (Option String) := none
deriving Repr, DecidableEq

/-! ## Credential store (passlib) and password validation -/

/-- Modelled from the spec: the password hash of the Credential Store
(`passlib` `pbkdf2_sha256`, an external library not in `src/`): a
deterministic-format, non-reversible hash.  The model tags the password;
only the round-trip property `pwdVerify p (pwdHash p) = true` is relied on. -/
def pwdHash (password : String) : String :=
  "pbkdf2_sha256$" ++ password

/-- Modelled from the spec: `pwd_context.verify` of `passlib` (external
library not in `src/`): verification succeeds exactly when the plain password
re-hashes to the stored credential. -/
def pwdVerify (plain hashed : String) : Bool :=
  hashed == pwdHash plain

/-- Python's `s.strip() == ""`: a string strips to empty exactly when every
character is whitespace (in particular when it is empty). -/
def stripEmpty (s : String) : Bool :=
  s.data.all Char.isWhitespace

/-- `crud._ensure_password_ok` (src/crud.py): `true` when the password is
accepted, `false` when the source raises `ValueError`
(`password.strip() == ""`, i.e. empty/whitespace-only, or longer than
`MAX_PASSWORD_BYTES = 4096` UTF-8 bytes). -/
def ensure_password_ok (password : String) : Bool :=
  !stripEmpty password && password.utf8ByteSize ≤ 4096

/-! ## User helpers (src/crud.py) -/

/-- `crud.get_user_by_email`: `db.query(User).filter(User.email == email).first()`. -/
def get_user_by_email (db : List User) (email : String) : Option User :=
  (db.filter (fun u => u.email == email)).head?

/-- `crud.get_user`: lookup by id. -/
def get_user (db : List User) (user_id : Nat) : Option User :=
  (db.filter (fun u => u.id == user_id)).head?

/-- `crud.create_user`: validates the password, hashes it, and inserts a row
with `is_active=True`.  The store-assigned primary key is passed as `newId`;
a `ValueError` raise is modelled as `Except.error`.  Returns the created user
and the new table state. -/
def create_user (db : List User) (user_in : UserCreate) (newId : Nat) :
    Except String (User × List User) :=
  if ensure_password_ok user_in.password then
    let db_user : User :=
      { id := newId
        email := user_in.email
        full_name := user_in.full_name
        hashed_password := pwdHash user_in.password
        is_active := true }
    .ok (db_user, db ++ [db_user])
  else
    .error "Password must be a non-empty string of at most 4096 bytes."

/-- `crud.authenticate_user`: email lookup, password validity check, hash
verification; any failure returns `None`. -/
def authenticate_user (db : List User) (email plain_password : String) :
    Option User :=
  match get_user_by_email db email with
  | none => none
  | some user =>
    if !ensure_password_ok plain_password then none
    else if !pwdVerify plain_password user.hashed_password then none
    else some user

/-! ## Item queries (src/crud.py)

Each function takes the item table in the order the store presents its rows;
the optional `owner_id` mirrors the duck-typed optional filter parameter of
the source. -/

/-- The conditional owner filter: `if owner_id is not None:
q = q.filter(Item.owner_id == owner_id)` applied to a row set `q`. -/
def ownerFiltered (owner_id : Option Nat) (q : List Item) : List Item :=
  match owner_id with
  | none => q
  | some o => q.filter (fun i => i.owner_id == some o)

/-- `crud.get_items`: optional owner filter, then `offset(skip).limit(limit)`. -/
def get_items (db : List Item) (owner_id : Option Nat) (skip limit : Nat) :
    List Item :=
  ((ownerFiltered owner_id db).drop skip).take limit

/-- `crud.get_item`: filter by id, optional owner filter, `first()`. -/
def get_item (db : List Item) (item_id : Nat) (owner_id : Option Nat) :
    Option Item :=
  (ownerFiltered owner_id (db.filter (fun i => i.id == item_id))).head?

/-- `crud.create_item`: builds the row from the payload, stamping
`owner_id` only when one is supplied, and inserts it.  `newId` is the
store-assigned primary key. -/
def create_item (db : List Item) (item : ItemCreate) (owner_id : Option Nat)
    (newId : Nat) : Item × List Item :=
  let db_item : Item :=
    { id := newId
      name := item.name
      category := item.category
      room := item.room
      cupboard := item.cupboard
      shelf := item.shelf
      loft := item.loft
      inside_items := item.inside_items
      notes := item.notes
      image_name := item.image_name
      image_path := item.image_path
      owner_id := owner_id }
  (db_item, db ++ [db_item])

/-- The per-row effect of `crud.update_item`'s loop
`for key, value in item.dict(exclude_unset=True).items(): setattr(db_item, key, value)`:
every explicitly-supplied field overwrites the row's field, every unset field
is left at its prior value. -/
def applyUpdate (u : ItemUpdate) (i : Item) : Item :=
  { i with
    name := u.name.getD i.name
    category := u.category.getD i.category
    room := u.room.getD i.room
    cupboard := u.cupboard.getD i.cupboard
    shelf := u.shelf.getD i.shelf
    loft := u.loft.getD i.loft
    inside_items := u.inside_items.getD i.inside_items
    notes := u.notes.getD i.notes
    image_name := u.image_name.getD i.image_name
    image_path := u.image_path.getD i.image_path }

/-- Replace the first row satisfying `p` by `f` of it (in-place ORM mutation
of the row returned by `first()`, committed to the table). -/
def replaceFirst (p : Item → Bool) (f : Item → Item) : List Item → List Item
  | [] => []
  | i :: rest => if p i then f i :: rest else i :: replaceFirst p f rest

/-- Remove the first row satisfying `p` (`db.delete` of the row returned by
`first()`). -/
def removeFirst (p : Item → Bool) : List Item → List Item
  | [] => []
  | i :: rest => if p i then rest else i :: removeFirst p rest

/-- `crud.update_item`: finds the row by id only — the function has no owner
parameter — applies the explicitly-set fields, and returns the updated row
(`None` if no row matches) together with the new table state. -/
def update_item (db : List Item) (item_id : Nat) (item : ItemUpdate) :
    Option Item × List Item :=
  match (db.filter (fun i => i.id == item_id)).head? with
  | none => (none, db)
  | some db_item =>
    (some (applyUpdate item db_item),
     replaceFirst (fun i => i.id == item_id) (applyUpdate item) db)

/-- `crud.attach_image_to_item`: filter by id, optional owner filter,
`first()`; on a hit, set the image metadata columns. -/
def attach_image_to_item (db : List Item) (item_id : Nat)
    (image_name image_path : String) (owner_id : Option Nat) :
    Option Item × List Item :=
  let pick := fun (i : Item) =>
    i.id == item_id &&
      (match owner_id with | none => true | some o => i.owner_id == some o)
  match (db.filter pick).head? with
  | none => (none, db)
  | some db_item =>
    let setImage := fun (i : Item) =>
      { i with image_name := some image_name, image_path := some image_path }
    (some (setImage db_item), replaceFirst pick setImage db)

/-- `crud.delete_item`: filter by id, optional owner filter, `first()`;
on a hit, delete the row and return its snapshot. -/
def delete_item (db : List Item) (item_id : Nat) (owner_id : Option Nat) :
    Option Item × List Item :=
  let pick := fun (i : Item) =>
    i.id == item_id &&
      (match owner_id with | none => true | some o => i.owner_id == some o)
  match (db.filter pick).head? with
  | none => (none, db)
  | some db_item => (some db_item, removeFirst pick db)

/-! ## SQL `ILIKE` (evaluated by the database) and `crud.search_items` -/

/-- Modelled from the spec: SQL `LIKE` pattern matching, the operator the
database evaluates for `Column.ilike` (no implementation in `src/`).  `%`
matches any character sequence, `_` matches exactly one character, any other
pattern character matches itself.  Escape sequences are not modelled; every
general theorem below is stated for patterns free of the escape character. -/
def likeMatch : List Char → List Char → Bool
  | [], h => h.isEmpty
  | c :: ps, h =>
    if c = '%' then h.tails.any (fun t => likeMatch ps t)
    else
      match h with
      | [] => false
      | d :: t => (c == '_' || c == d) && likeMatch ps t

/-- The lowercased character sequence of a string (SQL `lower`). -/
def lcs (s : String) : List Char :=
  s.data.map Char.toLower

/-- Modelled from the spec: `Column.ilike(pattern)`, case-insensitive `LIKE`
(external SQL semantics, no implementation in `src/`): both operands are
lowercased and matched with `likeMatch`. -/
def iLike (s pattern : String) : Bool :=
  likeMatch (lcs pattern) (lcs s)

/-- `ilike` applied to a nullable column: SQL `NULL ILIKE p` is `NULL`,
which a `WHERE` clause treats as no match. -/
def colILike (col : Option String) (pattern : String) : Bool :=
  match col with
  | none => false
  | some s => iLike s pattern

/-- The pattern `crud.search_items` builds: `f"%{search_term or ''}%"`. -/
def searchPattern (search_term : Option String) : String :=
  "%" ++ (match search_term with | none => "" | some s => s) ++ "%"

/-- The `or_` disjunction of the seven `ilike` clauses in
`crud.search_items`: name, category, room, cupboard, shelf, notes,
image_name. -/
def searchRowMatch (pattern : String) (i : Item) : Bool :=
  iLike i.name pattern || colILike i.category pattern ||
  iLike i.room pattern || colILike i.cupboard pattern ||
  colILike i.shelf pattern || colILike i.notes pattern ||
  colILike i.image_name pattern

/-- `crud.search_items`: in `image` mode, the items with a non-null
`image_path`; otherwise the `or_` of seven `ilike` filters over the pattern
`%term%`; in both modes the owner filter is applied only when `owner_id` is
not `None`. -/
def search_items (db : List Item) (search_term : Option String)
    (owner_id : Option Nat) (mode : String) : List Item :=
  if mode == "image" then
    ownerFiltered owner_id (db.filter (fun i => i.image_path.isSome))
  else
    ownerFiltered owner_id
      (db.filter (searchRowMatch (searchPattern search_term)))

/-! ## Token service (src/auth.py and the external `jose` library) -/

/-- `SECRET_KEY` (src/auth.py): the env-var default. -/
def SECRET_KEY : String := "change_this_to_a_random_secret_key_please"

/-- `ACCESS_TOKEN_EXPIRE_MINUTES` (src/auth.py): env-var default 1440 (24h). -/
def ACCESS_TOKEN_EXPIRE_MINUTES : Nat := 1440

/-- A bearer token string as the `jose` library classifies it: either not a
well-formed JWT at all, or a signed payload.  A signed token carries its
claims, the absolute `exp` instant (seconds), and the key it was signed
with; signature verification is modelled as comparing that key with the
verifier's key (tamper-evidence: a payload signed under a different key
never verifies). -/
inductive RawToken where
  | malformed (s : String)
  | signed (claims : List (String × String)) (exp : Nat) (key : String)
deriving Repr, DecidableEq

/-- `payload.get(claim)` on the decoded claims dictionary. -/
def getClaim (claims : List (String × String)) (claim : String) :
    Option String :=
  match claims.find? (fun kv => kv.1 == claim) with
  | none => none
  | some kv => some kv.2

/-- The failure cases of `jose.jwt.decode` / `auth.decode_token`, all raised
as `JWTError` in the source. -/
inductive JWTFailure where
  | malformed
  | signatureInvalid
  | expired
  | missingSub
deriving Repr, DecidableEq

/-- Modelled from the spec: `jose.jwt.decode(token, key, algorithms)` (the
`jose` library is not in `src/`).  It rejects a malformed token, a signature
made under a different key, and an expired token — per the spec a token
encodes "an absolute expiry", so the token is expired once the expiry
instant `exp` is reached (`exp ≤ now`) — and otherwise returns the claims. -/
def jwtDecode (token : RawToken) (key : String) (now : Nat) :
    Except JWTFailure (List (String × String)) :=
  match token with
  | .malformed _ => .error .malformed
  | .signed claims exp k =>
    if k != key then .error .signatureInvalid
    else if exp ≤ now then .error .expired
    else .ok claims

/-- The TTL `auth.create_access_token` uses:
`expires_delta if expires_delta else timedelta(minutes=ACCESS_TOKEN_EXPIRE_MINUTES)`,
in seconds. -/
def tokenTTL (expires_delta : Option Nat) : Nat :=
  match expires_delta with
  | some d => d
  | none => ACCESS_TOKEN_EXPIRE_MINUTES * 60

/-- `auth.create_access_token`: copies the claims and stamps
`exp = now + tokenTTL expires_delta`, then signs with `SECRET_KEY`.  Times
are in seconds; `expires_delta` is the optional timedelta in seconds. -/
def create_access_token (data : List (String × String)) (now : Nat)
    (expires_delta : Option Nat) : RawToken :=
  .signed data (now + tokenTTL expires_delta) SECRET_KEY

/-- `schemas.TokenData`. -/
structure TokenData where
  email : Option String := none
deriving Repr, DecidableEq

/-- `auth.decode_token`: `jwt.decode` with `SECRET_KEY`, then require the
`sub` claim (raising `JWTError("Missing sub")` when absent) and wrap it in
`TokenData`. -/
def decode_token (token : RawToken) (now : Nat) :
    Except JWTFailure TokenData :=
  match jwtDecode token SECRET_KEY now with
  | .error e => .error e
  | .ok payload =>
    match getClaim payload "sub" with
    | none => .error .missingSub
    | some email => .ok { email := some email }

/-- An HTTP error response (`fastapi.HTTPException`). -/
structure HttpError where
  status_code : Nat
  detail : String
deriving Repr, DecidableEq

/-- The single `credentials_exception` that `auth.get_current_user` raises
on every failure path. -/
def credentialsException : HttpError :=
  { status_code := 401
    detail := "Could not validate credentials (token invalid or expired)" }

/-- `auth.get_current_user`: `jwt.decode` with `SECRET_KEY`, require the
`sub` claim, look the subject up by email; every failure — malformed token,
bad signature, expired token, missing subject, unknown account — raises the
one `credentials_exception`. -/
def get_current_user (token : RawToken) (db : List User) (now : Nat) :
    Except HttpError User :=
  match jwtDecode token SECRET_KEY now with
  | .error _ => .error credentialsException
  | .ok payload =>
    match getClaim payload "sub" with
    | none => .error credentialsException
    | some email =>
      match get_user_by_email db email with
      | none => .error credentialsException
      | some user => .ok user

/-! ## The `/search/` endpoint (src/main.py) -/

/-- The `/search/` endpoint `search_items` of src/main.py: rejects an
invalid mode; in text mode rejects a missing (`None` — Python-falsy also
covers `""`) or whitespace-only term with a 400; otherwise delegates to
`crud.search_items` with the stripped term (a falsy `q` is passed as
`None`) and the current user's id. -/
def searchEndpoint (db : List Item) (q : Option String) (mode : String)
    (current_user : User) : Except HttpError (List Item) :=
  if !(mode == "text" || mode == "image") then
    .error { status_code := 400, detail := "Invalid search mode" }
  else if mode == "text" &&
      (match q with | none => true | some s => stripEmpty s) then
    .error { status_code := 400
             detail := "Search term cannot be empty for text mode" }
  else
    .ok (search_items db
      (match q with
       | none => none
       | some s => if s == "" then none else some s.trim)
      (some current_user.id) mode)

/-! ## The application's route table (src/main.py, src/routers/items.py) -/

/-- One registered HTTP route.  `usesIdentityResolver` records whether the
handler declares `Depends(auth.get_current_user)`; `itemOrAccountScoped`
whether the handler reads or writes item or account data;
`isSignupOrLogin` whether it is account creation or login. -/
structure Endpoint where
  method : String
  path : String
  usesIdentityResolver : Bool
  itemOrAccountScoped : Bool
  isSignupOrLogin : Bool
deriving Repr, DecidableEq

/-- The routes `src/main.py` registers on the FastAPI app, one entry per
`@app.<method>` decorator, in source order. -/
def appEndpoints : List Endpoint :=
  [ ⟨"GET", "/auth/login-page", false, false, false⟩,
    ⟨"GET", "/auth/signup-page", false, false, false⟩,
    ⟨"GET", "/", false, false, false⟩,
    ⟨"POST", "/auth/signup", false, true, true⟩,
    ⟨"POST", "/auth/login", false, true, true⟩,
    ⟨"GET", "/favicon.ico", false, false, false⟩,
    ⟨"GET", "/search/", true, true, false⟩,
    ⟨"GET", "/rooms/list", true, true, false⟩,
    ⟨"GET", "/categories/list", true, true, false⟩,
    ⟨"GET", "/images/", true, true, false⟩,
    ⟨"GET", "/items/by-room/{room_name}", true, true, false⟩,
    ⟨"GET", "/items/by-category/{category_name}", true, true, false⟩,
    ⟨"POST", "/items/", true, true, false⟩,
    ⟨"GET", "/items/", true, true, false⟩,
    ⟨"GET", "/items/{item_id}", true, true, false⟩,
    ⟨"POST", "/items/{item_id}/upload-image", true, true, false⟩,
    ⟨"PUT", "/items/{item_id}", true, true, false⟩,
    ⟨"DELETE", "/items/{item_id}", true, true, false⟩ ]

/-- The routes `src/routers/items.py` declares on its `APIRouter` — none of
their handlers declare `Depends(auth.get_current_user)`. -/
def routerItemsEndpoints : List Endpoint :=
  [ ⟨"POST", "/items/", false, true, false⟩,
    ⟨"GET", "/items/", false, true, false⟩,
    ⟨"GET", "/items/{item_id}", false, true, false⟩,
    ⟨"PUT", "/items/{item_id}", false, true, false⟩,
    ⟨"DELETE", "/items/{item_id}", false, true, false⟩ ]

/-- `src/main.py` never calls `app.include_router`, and nothing imports
`routers.items`, so the `APIRouter` of `src/routers/items.py` is not
registered on the application. -/
def routerItemsIncluded : Bool := false

/-- The routes the running application actually exposes: everything
registered in `src/main.py`, plus the items router's routes only if it were
included (it is not). -/
def exposedEndpoints : List Endpoint :=
  appEndpoints ++ (if routerItemsIncluded then routerItemsEndpoints else [])

/-! ## Spec-side search predicate

The specification describes text search as case-insensitive *substring*
matching across seven fields.  The following definitions state that reading
directly (to be compared with the `ilike`-based implementation above). -/

/-- `t` occurs as a contiguous substring of `h`: some suffix of `h` starts
with `t`. -/
def substrB (t h : List Char) : Bool :=
  h.tails.any (fun x => t.isPrefixOf x)

/-- A pattern character with no special `LIKE` meaning (not a wildcard and
not the escape character). -/
def plainChar (c : Char) : Bool :=
  !(c == '%' || c == '_' || c == '\\')

/-- The spec's field match: the term occurs case-insensitively as a
substring of the field. -/
def matchesCI (term field : String) : Bool :=
  substrB (lcs term) (lcs field)

/-- The spec's field match on a nullable field: a null field matches
nothing. -/
def colMatchesCI (term : String) (col : Option String) : Bool :=
  match col with
  | none => false
  | some s => matchesCI term s

/-- The spec's row match: the term matches at least one of the seven fields
name, category, room, cupboard, shelf, notes, image display name. -/
def itemMatchesCI (term : String) (i : Item) : Bool :=
  matchesCI term i.name || colMatchesCI term i.category ||
  matchesCI term i.room || colMatchesCI term i.cupboard ||
  colMatchesCI term i.shelf || colMatchesCI term i.notes ||
  colMatchesCI term i.image_name

/-! ## Sample rows for witnesses and counterexamples -/

/-- A sample item owned by account 7. -/
def rowA : Item := { id := 1, name := "A", room := "Garage", owner_id := some 7 }

/-- A second sample item owned by account 7. -/
def rowB : Item := { id := 2, name := "B", room := "Garage", owner_id := some 7 }

/-- A sample item owned by account 1. -/
def rowOwned1 : Item := { id := 5, name := "Lamp", room := "Hall", owner_id := some 1 }

/-- A sample registered account. -/
def userA : User :=
  { id := 1, email := "a@x.com", full_name := none,
    hashed_password := pwdHash "pw", is_active := true }

/-- A sample account whose `is_active` flag is `false`. -/
def userInactive : User :=
  { id := 2, email := "b@x.com", full_name := none,
    hashed_password := pwdHash "pw2", is_active := false }

/-- An item of account 3 none of whose fields contains an underscore. -/
def rowNoUnderscore : Item := { id := 9, name := "ab", room := "cd", owner_id := some 3 }

/-- An item of account 3 whose notes contain "Box12". -/
def rowBoxNotes : Item :=
  { id := 10, name := "Tools", room := "Garage",
    notes := some "stored in Box12", owner_id := some 3 }

/-- An item of account 3 with no field matching "box". -/
def rowNoMatch : Item := { id := 11, name := "Chair", room := "Hall", owner_id := some 3 }

/-- The item of the spec's partial-update scenario. -/
def atticItem : Item := { id := 3, name := "Box", room := "Attic", owner_id := some 7 }

/-- An update payload in which only `name` was provided. -/
def nameOnlyUpdate : ItemUpdate := { name := some "Crate" }

/-! ## Lemmas about `likeMatch` -/

theorem substrB_iff (t h : List Char) : substrB t h = true ↔ t <:+: h := by
  simp only [substrB, List.any_eq_true, List.mem_tails,
    List.isPrefixOf_iff_prefix, List.infix_iff_prefix_suffix]
  exact ⟨fun ⟨x, hs, hp⟩ => ⟨x, hp, hs⟩, fun ⟨x, hp, hs⟩ => ⟨x, hs, hp⟩⟩

theorem lcs_append (a b : String) : lcs (a ++ b) = lcs a ++ lcs b := by
  simp [lcs, String.data_append]

theorem lcs_searchPattern (t : String) :
    lcs (searchPattern (some t)) = '%' :: (lcs t ++ ['%']) := by
  have h1 : lcs "%" = ['%'] := by decide
  simp [searchPattern, lcs_append, h1]

theorem likeMatch_percent_cons (ps h : List Char) :
    likeMatch ('%' :: ps) h = h.tails.any (fun t => likeMatch ps t) := by
  simp [likeMatch]

theorem likeMatch_plain_append_percent (t : List Char)
    (ht : ∀ c ∈ t, plainChar c = true) (h : List Char) :
    likeMatch (t ++ ['%']) h = t.isPrefixOf h := by
  induction t generalizing h with
  | nil =>
    rw [List.nil_append, likeMatch_percent_cons]
    have hrhs : ([] : List Char).isPrefixOf h = true := by simp
    rw [hrhs]
    simp only [List.any_eq_true]
    exact ⟨[], (List.mem_tails [] h).mpr List.nil_suffix, rfl⟩
  | cons c t ih =>
    have hc' : (¬ (c = '%') ∧ ¬ (c = '_')) ∧ ¬ (c = '\\') := by
      simpa [plainChar] using ht c (List.mem_cons_self c t)
    have hund : (c == '_') = false := by
      simp [hc'.1.2]
    have ht' : ∀ d ∈ t, plainChar d = true :=
      fun d hd => ht d (List.mem_cons_of_mem c hd)
    cases h with
    | nil =>
      simp only [List.cons_append, likeMatch, if_neg hc'.1.1]
      simp [List.isPrefixOf]
    | cons d hs =>
      simp only [List.cons_append, likeMatch, if_neg hc'.1.1,
        List.isPrefixOf, List.append_eq]
      rw [ih ht' hs, hund]
      simp

theorem iLike_searchPattern_plain (term : String)
    (ht : ∀ c ∈ lcs term, plainChar c = true) (s : String) :
    iLike s (searchPattern (some term)) = matchesCI term s := by
  simp only [iLike, matchesCI, lcs_searchPattern, likeMatch_percent_cons,
    substrB]
  have : (fun t => likeMatch (lcs term ++ ['%']) t) =
      (fun t => (lcs term).isPrefixOf t) := by
    funext x; exact likeMatch_plain_append_percent (lcs term) ht x
  rw [this]

theorem colILike_searchPattern_plain (term : String)
    (ht : ∀ c ∈ lcs term, plainChar c = true) (col : Option String) :
    colILike col (searchPattern (some term)) = colMatchesCI term col := by
  cases col with
  | none => rfl
  | some s => simpa [colILike, colMatchesCI] using
      iLike_searchPattern_plain term ht s

theorem searchRowMatch_plain (term : String)
    (ht : ∀ c ∈ lcs term, plainChar c = true) (i : Item) :
    searchRowMatch (searchPattern (some term)) i = itemMatchesCI term i := by
  simp only [searchRowMatch, itemMatchesCI,
    iLike_searchPattern_plain term ht,
    colILike_searchPattern_plain term ht]

/-! ## Claims -/

/-- C1: for two distinct accounts `a ≠ b`, fetching an item that belongs to
`a` (every row carrying this id is owned by `a`) under `b`'s identity
returns nothing — exactly what `get_item` returns, for any requester, on a
table from which the item's rows are absent. -/
theorem C1_cross_owner_get_item_none (db : List Item) (item_id a b : Nat)
    (hown : ∀ j ∈ db, j.id = item_id → j.owner_id = some a)
    (hne : b ≠ a) :
    get_item db item_id (some b) = none ∧
    ∀ ow, get_item (db.filter (fun j => !(j.id == item_id))) item_id ow = none := by
  constructor
  · have hnil : (db.filter (fun i => i.id == item_id)).filter
        (fun i => i.owner_id == some b) = [] := by
      rw [List.filter_eq_nil_iff]
      intro i hi
      simp only [List.mem_filter] at hi
      have hid : i.id = item_id := by simpa using hi.2
      have hoa := hown i hi.1 hid
      simp [hoa]
      exact Ne.symm hne
    simp [get_item, ownerFiltered, hnil]
  · intro ow
    have hnil : (db.filter (fun j => !(j.id == item_id))).filter
        (fun i => i.id == item_id) = [] := by
      rw [List.filter_eq_nil_iff]
      intro i hi
      simp only [List.mem_filter] at hi
      simpa using hi.2
    cases ow <;> simp [get_item, ownerFiltered, hnil, List.filter_filter]

/-- Witness for C1 at a concrete input: an item of account 1, fetched by
account 2. -/
theorem C1_cross_owner_get_item_none_witness :
    (∀ j ∈ [rowOwned1], j.id = 5 → j.owner_id = some 1) ∧ (2 : Nat) ≠ 1 ∧
    get_item [rowOwned1] 5 (some 2) = none :=
  ⟨by decide, by decide,
    (C1_cross_owner_get_item_none [rowOwned1] 5 1 2 (by decide) (by decide)).1⟩

/-- C3: with `owner_id = None` the repository functions skip the ownership
filter entirely: `get_items` pages the whole table, `get_item`,
`delete_item` and `attach_image_to_item` hit the first id-match whatever its
owner (the head item `i` carries an arbitrary `owner_id`), both search modes
scan the whole table, and `update_item` — which has no owner parameter at
all — updates the first id-match whatever its owner. -/
theorem C3_none_owner_skips_scoping (i : Item) (rest db : List Item)
    (t : Option String) (u : ItemUpdate) (nm pth : String) (skip limit : Nat) :
    get_items db none skip limit = (db.drop skip).take limit ∧
    get_item (i :: rest) i.id none = some i ∧
    search_items db t none "text" = db.filter (searchRowMatch (searchPattern t)) ∧
    search_items db t none "image" = db.filter (fun j => j.image_path.isSome) ∧
    attach_image_to_item (i :: rest) i.id nm pth none =
      (some { i with image_name := some nm, image_path := some pth },
       { i with image_name := some nm, image_path := some pth } :: rest) ∧
    delete_item (i :: rest) i.id none = (some i, rest) ∧
    update_item (i :: rest) i.id u = (some (applyUpdate u i), applyUpdate u i :: rest) := by
  refine ⟨rfl, ?_, ?_, ?_, ?_, ?_, ?_⟩
  · simp [get_item, ownerFiltered]
  · simp [search_items, ownerFiltered]
  · simp [search_items, ownerFiltered]
  · simp [attach_image_to_item, replaceFirst]
  · simp [delete_item, removeFirst]
  · simp [update_item, replaceFirst]

/-- C9 counterexample: `crud.get_items` sends no ORDER BY, so the row order
is whatever the store presents.  For one and the same logical table (the two
presentations are permutations of each other), reading page 0 under one
presentation and page 1 under another duplicates `rowA` and omits `rowB`:
the code does not guarantee a stable order or a duplication-free,
omission-free pagination. -/
theorem C9_counterexample_order_not_stable :
    [rowB, rowA].Perm [rowA, rowB] ∧
    get_items [rowA, rowB] (some 7) 0 1 ++ get_items [rowB, rowA] (some 7) 1 1
      = [rowA, rowA] ∧
    rowB ∉ get_items [rowA, rowB] (some 7) 0 1 ++
      get_items [rowB, rowA] (some 7) 1 1 := by
  refine ⟨by decide, by decide, by decide⟩

/-- C9 (amended): against one fixed store presentation of the table,
`get_items` returns the contiguous slice of the owner's rows: page size is
bounded by `limit`, consecutive pages compose into one larger page, and page
0 with a large enough limit is exactly the owner's row list — so under a
fixed presentation successive pages partition the owner's inventory without
duplication or omission.  Stability across queries is not guaranteed by the
code (no ORDER BY), only by a store that keeps its presentation fixed. -/
theorem C9_amended_pages_partition (db : List Item) (owner : Option Nat)
    (s k m : Nat) :
    (get_items db owner s k).length ≤ k ∧
    get_items db owner s k ++ get_items db owner (s + k) m
      = get_items db owner s (k + m) ∧
    get_items db owner 0 ((ownerFiltered owner db).length)
      = ownerFiltered owner db := by
  refine ⟨List.length_take_le k _, ?_, by simp [get_items]⟩
  unfold get_items
  rw [List.take_add, ← List.drop_drop]

/-- C4: a token issued for subject `e` decodes back to `e` at any instant
strictly before its expiry, is rejected as expired at or after the expiry
instant, and with no explicit TTL the expiry is issuance time plus the
default lifetime of 1440 minutes. -/
theorem C4_token_issue_verify (e : String) (now t : Nat)
    (delta : Option Nat) :
    (t < now + tokenTTL delta →
      decode_token (create_access_token [("sub", e)] now delta) t
        = .ok { email := some e }) ∧
    (now + tokenTTL delta ≤ t →
      decode_token (create_access_token [("sub", e)] now delta) t
        = .error .expired) ∧
    create_access_token [("sub", e)] now none
      = .signed [("sub", e)] (now + 1440 * 60) SECRET_KEY := by
  refine ⟨?_, ?_, rfl⟩
  · intro h
    have hn : ¬ (now + tokenTTL delta ≤ t) := by omega
    simp [decode_token, jwtDecode, create_access_token, getClaim, hn]
  · intro h
    simp [decode_token, jwtDecode, create_access_token, h]

/-- Witness for C4: subject round-trip inside the TTL window at concrete
times. -/
theorem C4_token_issue_verify_witness :
    (5 : Nat) < 0 + tokenTTL (some 10) ∧
    decode_token (create_access_token [("sub", "a@x.com")] 0 (some 10)) 5
      = .ok { email := some "a@x.com" } :=
  ⟨by decide, (C4_token_issue_verify "a@x.com" 0 5 (some 10)).1 (by decide)⟩

/-- C5: `auth.get_current_user` returns the one `credentials_exception` in
all five failure cases — malformed token, wrong signing key, expired token,
missing `sub` claim, subject email matching no account — and on success
returns exactly the account found by `get_user_by_email` on the token's
subject. -/
theorem C5_resolver_uniform_error (db : List User) (now : Nat) (s : String)
    (claims : List (String × String)) (exp : Nat) (key : String) :
    get_current_user (.malformed s) db now = .error credentialsException ∧
    (key ≠ SECRET_KEY →
      get_current_user (.signed claims exp key) db now
        = .error credentialsException) ∧
    (exp ≤ now →
      get_current_user (.signed claims exp SECRET_KEY) db now
        = .error credentialsException) ∧
    (now < exp → getClaim claims "sub" = none →
      get_current_user (.signed claims exp SECRET_KEY) db now
        = .error credentialsException) ∧
    (∀ em, now < exp → getClaim claims "sub" = some em →
      get_user_by_email db em = none →
      get_current_user (.signed claims exp SECRET_KEY) db now
        = .error credentialsException) ∧
    (∀ em u, now < exp → getClaim claims "sub" = some em →
      get_user_by_email db em = some u →
      get_current_user (.signed claims exp SECRET_KEY) db now = .ok u) := by
  refine ⟨rfl, ?_, ?_, ?_, ?_, ?_⟩
  · intro h
    simp [get_current_user, jwtDecode, bne_iff_ne, h]
  · intro h
    simp [get_current_user, jwtDecode, h]
  · intro h1 h2
    have hn : ¬ (exp ≤ now) := by omega
    simp [get_current_user, jwtDecode, hn, h2]
  · intro em h1 h2 h3
    have hn : ¬ (exp ≤ now) := by omega
    simp [get_current_user, jwtDecode, hn, h2, h3]
  · intro em u h1 h2 h3
    have hn : ¬ (exp ≤ now) := by omega
    simp [get_current_user, jwtDecode, hn, h2, h3]

/-- Witness for C5: the success path at a concrete token and account. -/
theorem C5_resolver_uniform_error_witness :
    get_user_by_email [userA] "a@x.com" = some userA ∧
    get_current_user (.signed [("sub", "a@x.com")] 10 SECRET_KEY) [userA] 5
      = .ok userA :=
  ⟨by decide,
    (C5_resolver_uniform_error [userA] 5 "x" [("sub", "a@x.com")] 10
        SECRET_KEY).2.2.2.2.2 "a@x.com" userA (by decide) (by decide)
      (by decide)⟩

/-- C10: the active flag is never consulted after creation: `create_user`
always stores `is_active = true`; `authenticate_user` succeeds whenever the
email resolves and the password verifies, and `get_current_user` succeeds
whenever the token is valid and its subject resolves — both for every value
of `is_active` (the account `u` below is arbitrary), so an account with
`is_active = false` retains full login and data access. -/
theorem C10_active_flag_ignored :
    (∀ (db : List User) (uin : UserCreate) (nid : Nat) (u : User)
        (db2 : List User),
      create_user db uin nid = .ok (u, db2) → u.is_active = true) ∧
    (∀ (db : List User) (u : User) (p : String),
      get_user_by_email db u.email = some u →
      ensure_password_ok p = true →
      pwdVerify p u.hashed_password = true →
      authenticate_user db u.email p = some u) ∧
    (∀ (db : List User) (u : User) (em : String)
        (claims : List (String × String)) (exp now : Nat),
      now < exp → getClaim claims "sub" = some em →
      get_user_by_email db em = some u →
      get_current_user (.signed claims exp SECRET_KEY) db now = .ok u) := by
  refine ⟨?_, ?_, ?_⟩
  · intro db uin nid u db2 h
    unfold create_user at h
    split at h
    · rw [Except.ok.injEq, Prod.mk.injEq] at h
      rw [← h.1]
    · exact Except.noConfusion h
  · intro db u p h1 h2 h3
    simp [authenticate_user, h1, h2, h3]
  · intro db u em claims exp now h1 h2 h3
    have hn : ¬ (exp ≤ now) := by omega
    simp [get_current_user, jwtDecode, hn, h2, h3]

/-- Witness for C10: a concrete account with `is_active = false` still logs
in and still resolves through the identity gate. -/
theorem C10_active_flag_ignored_witness :
    userInactive.is_active = false ∧
    authenticate_user [userInactive] userInactive.email "pw2"
      = some userInactive ∧
    get_current_user (.signed [("sub", "b@x.com")] 10 SECRET_KEY)
      [userInactive] 5 = .ok userInactive :=
  ⟨rfl,
    C10_active_flag_ignored.2.1 [userInactive] userInactive "pw2" (by decide)
      (by decide) (by decide),
    C10_active_flag_ignored.2.2 [userInactive] userInactive "b@x.com"
      [("sub", "b@x.com")] 10 5 (by decide) (by decide) (by decide)⟩

/-- C2: every item- or account-scoped route the application exposes obtains
its principal through `auth.get_current_user`, except signup and login. -/
theorem C2_identity_resolver_gate :
    ∀ e ∈ exposedEndpoints, e.itemOrAccountScoped = true →
      e.usesIdentityResolver = true ∨ e.isSignupOrLogin = true := by
  decide

/-- Witness for C2 at a concrete route: the search endpoint. -/
theorem C2_identity_resolver_gate_witness :
    (Endpoint.mk "GET" "/search/" true true false) ∈ exposedEndpoints ∧
    ((Endpoint.mk "GET" "/search/" true true false).usesIdentityResolver = true ∨
      (Endpoint.mk "GET" "/search/" true true false).isSignupOrLogin = true) :=
  ⟨by decide,
    C2_identity_resolver_gate (Endpoint.mk "GET" "/search/" true true false)
      (by decide) (by decide)⟩

/-- C6 counterexample: the search term is interpolated into the `ILIKE`
pattern unescaped, so `LIKE` wildcards in the term keep their special
meaning.  The non-blank term "_" is not a substring of any field of
`rowNoUnderscore` (its case-insensitive seven-field substring match is
`false`), yet the text search returns the item — so the search does not
return *exactly* the items with a substring match, refuting the claim as
stated. -/
theorem C6_counterexample_wildcard_term :
    stripEmpty "_" = false ∧
    itemMatchesCI "_" rowNoUnderscore = false ∧
    search_items [rowNoUnderscore] (some "_") (some 3) "text"
      = [rowNoUnderscore] := by
  exact ⟨by decide, by decide, by decide⟩

/-- C6 (amended): for every owner and every non-blank term containing no
`LIKE` metacharacter (`%`, `_`, or the escape character `\\`), text search
returns exactly the owner's items for which the term matches
case-insensitively as a substring of at least one of the seven fields name,
category, room, cupboard, shelf, notes, image display name. -/
theorem C6_amended_text_search_substring (db : List Item) (o : Nat)
    (term : String) (hblank : stripEmpty term = false)
    (hplain : ∀ c ∈ lcs term, plainChar c = true) :
    search_items db (some term) (some o) "text"
      = db.filter (fun i => (i.owner_id == some o) && itemMatchesCI term i) := by
  simp only [search_items, ownerFiltered]
  rw [if_neg (by decide), List.filter_filter]
  apply List.filter_congr
  intro i _
  rw [searchRowMatch_plain term hplain i]

/-- Witness for C6: term "box" matches the item whose notes contain "Box12"
and excludes the item with no matching field. -/
theorem C6_amended_text_search_substring_witness :
    stripEmpty "box" = false ∧ (∀ c ∈ lcs "box", plainChar c = true) ∧
    search_items [rowBoxNotes, rowNoMatch] (some "box") (some 3) "text"
      = [rowBoxNotes, rowNoMatch].filter
          (fun i => (i.owner_id == some 3) && itemMatchesCI "box" i) ∧
    search_items [rowBoxNotes, rowNoMatch] (some "box") (some 3) "text"
      = [rowBoxNotes] :=
  ⟨by decide, by decide,
    C6_amended_text_search_substring [rowBoxNotes, rowNoMatch] 3 "box"
      (by decide) (by decide),
    by decide⟩

/-- C7: a text-mode search whose term is missing, empty or whitespace-only
is rejected by the `/search/` endpoint with a 400 validation error; it never
returns a result list. -/
theorem C7_blank_term_is_validation_error (db : List Item) (q : Option String)
    (u : User)
    (hq : q = none ∨ ∃ s, q = some s ∧ stripEmpty s = true) :
    searchEndpoint db q "text" u
      = .error { status_code := 400
                 detail := "Search term cannot be empty for text mode" } ∧
    ∀ r, searchEndpoint db q "text" u ≠ .ok r := by
  have key : ∀ q' : Option String,
      (match q' with | none => true | some s => stripEmpty s) = true →
      searchEndpoint db q' "text" u
        = .error { status_code := 400
                   detail := "Search term cannot be empty for text mode" } ∧
      ∀ r, searchEndpoint db q' "text" u ≠ .ok r := by
    intro q' hcond
    have h1 : searchEndpoint db q' "text" u
        = .error { status_code := 400
                   detail := "Search term cannot be empty for text mode" } := by
      simp [searchEndpoint, hcond]
    exact ⟨h1, fun r h => by rw [h1] at h; exact Except.noConfusion h⟩
  rcases hq with rfl | ⟨s, rfl, hs⟩
  · exact key none rfl
  · exact key (some s) (by simpa using hs)

/-- Witness for C7: a whitespace-only term at a concrete input. -/
theorem C7_blank_term_is_validation_error_witness :
    stripEmpty "   " = true ∧
    searchEndpoint [rowA] (some "   ") "text" userA
      = .error { status_code := 400
                 detail := "Search term cannot be empty for text mode" } :=
  ⟨by decide,
    (C7_blank_term_is_validation_error [rowA] (some "   ") userA
      (Or.inr ⟨"   ", rfl, by decide⟩)).1⟩

/-- C8: `crud.update_item` has partial-update semantics: when no row has the
given id it returns nothing and leaves the table unchanged; when the first
id-match is `i` it returns `applyUpdate u i`, which overwrites exactly the
explicitly-provided fields (shown for `name`) and leaves every unset field
at its prior value (shown for all ten updatable fields). -/
theorem C8_partial_update (db : List Item) (iid : Nat) (u : ItemUpdate)
    (i : Item) :
    ((db.filter (fun j => j.id == iid)).head? = none →
      update_item db iid u = (none, db)) ∧
    ((db.filter (fun j => j.id == iid)).head? = some i →
      (update_item db iid u).1 = some (applyUpdate u i)) ∧
    (∀ v, u.name = some v → (applyUpdate u i).name = v) ∧
    (u.name = none → (applyUpdate u i).name = i.name) ∧
    (u.category = none → (applyUpdate u i).category = i.category) ∧
    (u.room = none → (applyUpdate u i).room = i.room) ∧
    (u.cupboard = none → (applyUpdate u i).cupboard = i.cupboard) ∧
    (u.shelf = none → (applyUpdate u i).shelf = i.shelf) ∧
    (u.loft = none → (applyUpdate u i).loft = i.loft) ∧
    (u.inside_items = none → (applyUpdate u i).inside_items = i.inside_items) ∧
    (u.notes = none → (applyUpdate u i).notes = i.notes) ∧
    (u.image_name = none → (applyUpdate u i).image_name = i.image_name) ∧
    (u.image_path = none → (applyUpdate u i).image_path = i.image_path) := by
  refine ⟨fun h => by simp [update_item, h],
    fun h => by simp [update_item, h],
    fun v hv => by simp [applyUpdate, hv],
    fun h => by simp [applyUpdate, h],
    fun h => by simp [applyUpdate, h],
    fun h => by simp [applyUpdate, h],
    fun h => by simp [applyUpdate, h],
    fun h => by simp [applyUpdate, h],
    fun h => by simp [applyUpdate, h],
    fun h => by simp [applyUpdate, h],
    fun h => by simp [applyUpdate, h],
    fun h => by simp [applyUpdate, h],
    fun h => by simp [applyUpdate, h]⟩

/-- Witness for C8: the spec's scenario — create an item with room "Attic",
update only `name`, and the room is still "Attic". -/
theorem C8_partial_update_witness :
    ([atticItem].filter (fun j => j.id == 3)).head? = some atticItem ∧
    (update_item [atticItem] 3 nameOnlyUpdate).1
      = some (applyUpdate nameOnlyUpdate atticItem) ∧
    nameOnlyUpdate.room = none ∧
    (applyUpdate nameOnlyUpdate atticItem).room = "Attic" ∧
    (applyUpdate nameOnlyUpdate atticItem).name = "Crate" ∧
    get_item (update_item [atticItem] 3 nameOnlyUpdate).2 3 (some 7)
      = some { atticItem with name := "Crate" } :=
  ⟨by decide,
    (C8_partial_update [atticItem] 3 nameOnlyUpdate atticItem).2.1 (by decide),
    rfl,
    (C8_partial_update [atticItem] 3 nameOnlyUpdate atticItem).2.2.2.2.2.1 rfl,
    by decide, by decide⟩

end HomeInventory
